import Mathlib

/-!
Shallow embedding of the typet library's validation engine
(src/typet/validation.py) and typed-record engine (src/typet/objects.py).

Python values are modelled by `PyVal` (integers, strings and None cover the
claims); Python exceptions by `PyError`.  Code that may raise returns
`Except PyError _`; a property setter additionally threads the stored slot
explicitly.  Every definition is translated from the source functions named
in its doc comment.
-/

namespace Typet

/-- Model of the Python values the claims exercise: int, str and None. -/
inductive PyVal where
  | int (n : Int)
  | str (s : String)
  | none
deriving DecidableEq, Repr

/-- Model of the two exception classes raised by the code under study. -/
inductive PyError where
  | valueError (msg : String)
  | typeError (msg : String)
deriving DecidableEq, Repr

/-- Python repr of the modelled values: repr(5) is 5, repr of a string wraps
it in single quotes, repr(None) is None. -/
def pyRepr : PyVal → String
  | .int n => toString n
  | .str s => "'" ++ s ++ "'"
  | .none => "None"

/-- Python truthiness of the modelled values. -/
def pyTruthy : PyVal → Bool
  | .int n => n != 0
  | .str s => s != ""
  | .none => false

/-- The Python type name of a modelled value. -/
def pyTypeName : PyVal → String
  | .int _ => "int"
  | .str _ => "str"
  | .none => "NoneType"

/-- Digit-string parsing used by the int() model: all characters must be
decimal digits and there must be at least one. -/
def parseDigits : List Char → Option Nat
  | [] => Option.none
  | cs =>
    if cs.all Char.isDigit then
      Option.some (cs.foldl (fun a c => a * 10 + (c.toNat - 48)) 0)
    else Option.none

/-- Model of which strings Python int() accepts: an optional minus sign and
one or more decimal digits. -/
def parsePyInt (s : String) : Option Int :=
  match s.data with
  | [] => Option.none
  | c :: rest =>
    if c = '-' then (parseDigits rest).map (fun n => -(n : Int))
    else (parseDigits (c :: rest)).map (fun n => (n : Int))

/-- Model of calling int(v): ints pass through, numeric strings parse, other
strings raise ValueError, None raises TypeError. -/
def intCall : PyVal → Except PyError PyVal
  | .int n => .ok (.int n)
  | .str s =>
    match parsePyInt s with
    | Option.some n => .ok (.int n)
    | Option.none =>
      .error (.valueError ("invalid literal for int() with base 10: " ++ pyRepr (.str s)))
  | .none =>
    .error (.typeError "int() argument must be a string or a number, not 'NoneType'")

/-- Model of _BoundedMeta._instantiate with BaseClass = type_ = int (the
Bounded[int, ...] case): the first attempt catches only TypeError; after a
TypeError the base-type retry catches every exception and falls back to the
raw value; any other exception from the first attempt propagates. -/
def instantiateInt (v : PyVal) : Except PyError PyVal :=
  match intCall v with
  | .ok r => .ok r
  | .error (.typeError _) =>
    match intCall v with
    | .ok r => .ok r
    | .error _ => .ok v
  | .error e => .error e

/-- Model of the Python 3 comparison cmp_val < lower used in __new__: int
against int compares, any other left operand raises TypeError. -/
def pyLtInt : PyVal → Int → Except PyError Bool
  | .int n, m => .ok (decide (n < m))
  | v, _ =>
    .error (.typeError
      ("'<' not supported between instances of '" ++ pyTypeName v ++ "' and 'int'"))

/-- Model of the Python 3 comparison cmp_val > upper used in __new__. -/
def pyGtInt : PyVal → Int → Except PyError Bool
  | .int n, m => .ok (decide (n > m))
  | v, _ =>
    .error (.typeError
      ("'>' not supported between instances of '" ++ pyTypeName v ++ "' and 'int'"))

/-- The identity-key "below the minimum" message of _BoundedSubclass.__new__,
built from the repr of the raw argument. -/
def belowMinMsg (v : PyVal) (lo : Int) : String :=
  ("The value " ++ pyRepr v ++ " is ") ++
    ("below the minimum allowed value of " ++ (toString lo ++ "."))

/-- The identity-key "above the maximum" message of _BoundedSubclass.__new__. -/
def aboveMaxMsg (v : PyVal) (hi : Int) : String :=
  ("The value " ++ pyRepr v ++ " is ") ++
    ("above the maximum allowed value of " ++ (toString hi ++ "."))

/-- The predicate-mode failure message of __new__: the key function's full
name applied to the repr of the instance, declared False. -/
def predFalseMsg (keyfuncName : String) (inst : PyVal) : String :=
  keyfuncName ++ "(" ++ pyRepr inst ++ ") is False"

/-- The upper-bound arm of _BoundedSubclass.__new__ for the identity key. -/
def checkUpperInt (stop : Option Int) (v inst : PyVal) : Except PyError PyVal :=
  match stop with
  | Option.some hi =>
    match pyGtInt inst hi with
    | .error e => .error e
    | .ok true => .error (.valueError (aboveMaxMsg v hi))
    | .ok false => .ok inst
  | Option.none => .ok inst

/-- Model of constructing a value through Bounded[int, start:stop]
(_BoundedSubclass.__new__ with the identity key function): coerce through
instantiateInt, then check the lower and the upper bound; with no bound at
all, fall through to the elif truthiness branch. -/
def boundedIntNew (start stop : Option Int) (v : PyVal) : Except PyError PyVal :=
  match instantiateInt v with
  | .error e => .error e
  | .ok inst =>
    match start with
    | Option.some lo =>
      match pyLtInt inst lo with
      | .error e => .error e
      | .ok true => .error (.valueError (belowMinMsg v lo))
      | .ok false => checkUpperInt stop v inst
    | Option.none =>
      match stop with
      | Option.some _ => checkUpperInt stop v inst
      | Option.none =>
        if pyTruthy inst then .ok inst
        else .error (.valueError (predFalseMsg "typet.validation._identity" inst))

/-- Model of _ValidationMeta.__instancecheck__ on a Bounded[int, ...] type:
bool of isinstance(other, int) and cls(other), catching only ValueError. -/
def boundedIntInstanceCheck (start stop : Option Int) (v : PyVal) :
    Except PyError Bool :=
  match v with
  | .int _ =>
    match boundedIntNew start stop v with
    | .ok r => .ok (pyTruthy r)
    | .error (.valueError _) => .ok false
    | .error e => .error e
  | _ => .ok false

/-- Helper: appending to a string is injective on the right argument. -/
theorem str_data_append (s t : String) : (s ++ t).data = s.data ++ t.data := rfl

/-- Helper: cancel a shared prefix of two equal strings. -/
theorem str_append_cancel_left {p s t : String} (h : p ++ s = p ++ t) : s = t := by
  have h2 := congrArg String.data h
  rw [str_data_append, str_data_append] at h2
  exact String.ext (List.append_cancel_left h2)

/-- Helper: a below-minimum message never coincides with an above-maximum
message for the same offending value. -/
theorem below_ne_above (v : PyVal) (lo hi : Int) :
    belowMinMsg v lo ≠ aboveMaxMsg v hi := by
  intro h
  have h1 := str_append_cancel_left h
  have h2 := congrArg String.data h1
  simp only [str_data_append] at h2
  simp at h2

/-- Helper: a failed instantiation propagates out of __new__. -/
theorem boundedIntNew_err (start stop : Option Int) (v : PyVal) (e : PyError)
    (h : instantiateInt v = .error e) :
    boundedIntNew start stop v = .error e := by
  simp [boundedIntNew, h]

/-- Helper: the two-sided bound check once instantiation produced an int. -/
theorem boundedIntNew_int_inst (L U n : Int) (v : PyVal)
    (h : instantiateInt v = .ok (.int n)) :
    boundedIntNew (Option.some L) (Option.some U) v =
      if n < L then .error (.valueError (belowMinMsg v L))
      else if n > U then .error (.valueError (aboveMaxMsg v U))
      else .ok (.int n) := by
  simp only [boundedIntNew, h, pyLtInt, checkUpperInt, pyGtInt]
  by_cases h1 : n < L
  · simp [h1]
  · by_cases h2 : n > U
    · simp [h1, h2]
    · simp [h1, h2]

/-- Helper: the bound check on a direct integer argument. -/
theorem boundedIntNew_int_eq (a b x : Int) :
    boundedIntNew (Option.some a) (Option.some b) (.int x) =
      if x < a then .error (.valueError (belowMinMsg (.int x) a))
      else if x > b then .error (.valueError (aboveMaxMsg (.int x) b))
      else .ok (.int x) :=
  boundedIntNew_int_inst a b x (.int x) rfl

/-- C1: for integers a < b and every integer x, Bounded[int, a:b](x) succeeds
returning x unchanged iff a ≤ x ≤ b, raises the below-the-minimum ValueError
iff x < a, and raises the above-the-maximum ValueError iff x > b. -/
theorem c1_bounded_int_trichotomy (a b x : Int) (hab : a < b) :
    (boundedIntNew (Option.some a) (Option.some b) (.int x) = .ok (.int x) ↔
      a ≤ x ∧ x ≤ b) ∧
    (boundedIntNew (Option.some a) (Option.some b) (.int x) =
      .error (.valueError (belowMinMsg (.int x) a)) ↔ x < a) ∧
    (boundedIntNew (Option.some a) (Option.some b) (.int x) =
      .error (.valueError (aboveMaxMsg (.int x) b)) ↔ x > b) := by
  rw [boundedIntNew_int_eq]
  by_cases h1 : x < a
  · simp only [if_pos h1]
    refine ⟨?_, ?_, ?_⟩
    · simp; omega
    · simp [h1]
    · simp [below_ne_above]; omega
  · by_cases h2 : x > b
    · simp only [if_neg h1, if_pos h2]
      refine ⟨?_, ?_, ?_⟩
      · simp; omega
      · constructor
        · intro h
          exact absurd ((PyError.valueError.injEq _ _).mp
            ((Except.error.injEq _ _).mp h)).symm (below_ne_above _ _ _)
        · intro h; omega
      · simp [h2]
    · simp only [if_neg h1, if_neg h2]
      refine ⟨?_, ?_, ?_⟩
      · simp; omega
      · simp; omega
      · simp; omega

/-- Witness for C1 at a = 10, b = 20, x = 15. -/
theorem c1_witness :
    boundedIntNew (Option.some 10) (Option.some 20) (.int 15) = .ok (.int 15) :=
  (c1_bounded_int_trichotomy 10 20 15 (by decide)).1.mpr (by decide)

/-- C2 counterexample: Bounded[int, 0:150](0) succeeds and returns 0, yet the
instance-check on 0 reports False, because __instancecheck__ returns the
truthiness of the constructed instance and 0 is falsy. -/
theorem c2_counterexample :
    boundedIntNew (Option.some 0) (Option.some 150) (.int 0) = .ok (.int 0) ∧
    boundedIntInstanceCheck (Option.some 0) (Option.some 150) (.int 0) =
      .ok false := by
  exact ⟨rfl, rfl⟩

/-- C2 amended: the instance-check reports True exactly when the value is an
int, construction succeeds, and the constructed instance is truthy; so a
value reported an instance always passes construction, but a value passing
construction (a falsy result, or a coercible non-int) may report False. -/
theorem c2_amended_instancecheck (start stop : Option Int) (v : PyVal) :
    boundedIntInstanceCheck start stop v = .ok true ↔
      (∃ n, v = PyVal.int n) ∧
        ∃ r, boundedIntNew start stop v = .ok r ∧ pyTruthy r = true := by
  cases v with
  | int n =>
    simp only [boundedIntInstanceCheck]
    cases h : boundedIntNew start stop (.int n) with
    | ok r => simp [h]
    | error e =>
      cases e with
      | valueError m => simp [h]
      | typeError m => simp [h]
  | str s => simp [boundedIntInstanceCheck]
  | none => simp [boundedIntInstanceCheck]

/-- C3 counterexample: construction through Bounded[int, 10:20] applied to
the uncoercible string abc fails at the coercion stage with the ValueError
of int(), before any bound is checked. -/
theorem c3_counterexample :
    boundedIntNew (Option.some 10) (Option.some 20) (.str "abc") =
      .error (.valueError
        ("invalid literal for int() with base 10: " ++ pyRepr (.str "abc"))) := by
  rfl

/-- Helper: instantiation of a direct integer succeeds. -/
theorem instantiateInt_int (n : Int) : instantiateInt (.int n) = .ok (.int n) := rfl

/-- Helper: instantiation of a coercible string yields the parsed integer. -/
theorem instantiateInt_str_some (s : String) (n : Int)
    (h : parsePyInt s = Option.some n) :
    instantiateInt (.str s) = .ok (.int n) := by
  simp [instantiateInt, intCall, h]

/-- Helper: instantiation of an uncoercible string propagates the ValueError. -/
theorem instantiateInt_str_none (s : String) (h : parsePyInt s = Option.none) :
    instantiateInt (.str s) =
      .error (.valueError
        ("invalid literal for int() with base 10: " ++ pyRepr (.str s))) := by
  simp [instantiateInt, intCall, h]

/-- C3 amended: the coercion stage catches only TypeError on the first
attempt, after which the base-type retry catches every exception and falls
back to the raw value, so ints, coercible strings and TypeError-raising
values never fail there; but the ValueError raised by int() on an
uncoercible string propagates, so construction can fail at coercion. -/
theorem c3_amended_instantiate :
    (∀ n : Int, instantiateInt (.int n) = .ok (.int n)) ∧
    (∀ s n, parsePyInt s = Option.some n → instantiateInt (.str s) = .ok (.int n)) ∧
    (∀ s, parsePyInt s = Option.none →
      instantiateInt (.str s) =
        .error (.valueError
          ("invalid literal for int() with base 10: " ++ pyRepr (.str s)))) ∧
    instantiateInt PyVal.none = .ok PyVal.none :=
  ⟨instantiateInt_int, instantiateInt_str_some, instantiateInt_str_none, rfl⟩

/-- Witness for C3 at the coercible string 7 and the uncoercible string x. -/
theorem c3_witness :
    instantiateInt (.str "7") = .ok (.int 7) ∧
    instantiateInt (.str "x") =
      .error (.valueError
        ("invalid literal for int() with base 10: " ++ pyRepr (.str "x"))) :=
  ⟨c3_amended_instantiate.2.1 "7" 7 (by decide),
    c3_amended_instantiate.2.2.1 "x" (by decide)⟩

/-- Model of _BoundedMeta._get_bound_repr on one end of the slice: a falsy
end (None, or the integer 0) renders as the empty string. -/
def boundEndRepr : Option Int → String
  | Option.none => ""
  | Option.some n => if n = 0 then "" else toString n

/-- Model of _BoundedMeta._get_bound_repr. -/
def getBoundRepr (start stop : Option Int) : String :=
  boundEndRepr start ++ ":" ++ boundEndRepr stop

/-- Model of _BoundedMeta._get_fullname on a class with the given module and
name: built-in classes keep the bare name. -/
def getFullname (module name : String) : String :=
  if module = "builtins" ∨ module = "__builtin__" then name
  else module ++ "." ++ name

/-- Model of _BoundedMeta._get_class_repr: the sliced type renders as the
module-qualified factory name, the base type's full name and the bound, with
the key-function name appended only when the key is not the default. -/
def getClassRepr (clsModule clsName typeFullname : String)
    (start stop : Option Int) (keyfuncIsDefault : Bool)
    (keyfuncName : String) : String :=
  if !keyfuncIsDefault then
    clsModule ++ "." ++ clsName ++ "[" ++ typeFullname ++ ", " ++
      getBoundRepr start stop ++ ", " ++ keyfuncName ++ "]"
  else
    clsModule ++ "." ++ clsName ++ "[" ++ typeFullname ++ ", " ++
      getBoundRepr start stop ++ "]"

/-- The cached __class_repr__ of Bounded[int, start:stop] with the identity
key: Bounded lives in module typet.validation, int is built in, and the
identity key is the default, so no key name is appended. -/
def boundedIntClassRepr (start stop : Option Int) : String :=
  getClassRepr "typet.validation" "Bounded" (getFullname "builtins" "int")
    start stop true "typet.validation._identity"

/-- The cached __class_repr__ of Length[str, start:stop]: the len key is the
default of _LengthBoundedMeta, so no key name is appended. -/
def lengthStrClassRepr (start stop : Option Int) : String :=
  getClassRepr "typet.validation" "Length" (getFullname "builtins" "str")
    start stop true "len"

/-- C4 counterexample: the repr of the type created by Bounded[int, 10:20] is
not the claimed string Bounded[int, 10:20]. -/
theorem c4_counterexample :
    boundedIntClassRepr (Option.some 10) (Option.some 20) ≠
      "Bounded[int, 10:20]" := by
  decide

/-- C4 amended: the rendered repr is module-qualified, following the format
module.Name[typeName, lower:upper] (key-function name appended only for a
non-default key): Bounded[int, 10:20] renders as
typet.validation.Bounded[int, 10:20] and Length[str, 1:5] as
typet.validation.Length[str, 1:5]; the synthesis parameters can be read back
from the bracketed tail. -/
theorem c4_amended_class_repr :
    boundedIntClassRepr (Option.some 10) (Option.some 20) =
      "typet.validation.Bounded[int, 10:20]" ∧
    lengthStrClassRepr (Option.some 1) (Option.some 5) =
      "typet.validation.Length[str, 1:5]" := by
  exact ⟨by decide, by decide⟩

/-- C5 counterexample: with the inverted bounds 20:10, constructing from None
does not raise the bound ValueError: int(None) raises TypeError twice, the
raw value None is kept, and comparing None with the lower bound raises
TypeError instead of the claimed ValueError. -/
theorem c5_counterexample :
    boundedIntNew (Option.some 20) (Option.some 10) PyVal.none =
      .error (.typeError
        "'<' not supported between instances of 'NoneType' and 'int'") := by
  rfl

/-- C5 amended: Bounded[int, L:U] with L > U is created without error (the
engine never compares the bounds) and is permanently unsatisfiable: no
construction from any modelled value succeeds, and every integer input
raises the bound ValueError (below the minimum when x < L, otherwise above
the maximum); only inputs whose fallback value cannot be ordered against the
bounds raise TypeError from the comparison instead. -/
theorem c5_amended_unsatisfiable (L U : Int) (h : U < L) :
    (∀ v r, boundedIntNew (Option.some L) (Option.some U) v ≠ .ok r) ∧
    (∀ x : Int, boundedIntNew (Option.some L) (Option.some U) (.int x) =
      if x < L then .error (.valueError (belowMinMsg (.int x) L))
      else .error (.valueError (aboveMaxMsg (.int x) U))) := by
  constructor
  · intro v r
    cases v with
    | int n =>
      rw [boundedIntNew_int_inst L U n (.int n) (instantiateInt_int n)]
      split_ifs with h1 h2 <;> simp <;> omega
    | str s =>
      cases hp : parsePyInt s with
      | some n =>
        rw [boundedIntNew_int_inst L U n _ (instantiateInt_str_some s n hp)]
        split_ifs with h1 h2 <;> simp <;> omega
      | none =>
        rw [boundedIntNew_err _ _ _ _ (instantiateInt_str_none s hp)]
        simp
    | none => simp [boundedIntNew, instantiateInt, intCall, pyLtInt]
  · intro x
    rw [boundedIntNew_int_eq]
    split_ifs with h1 h2 <;> first | rfl | omega

/-- Witness for C5 at L = 20, U = 10, x = 15 (above the maximum 10). -/
theorem c5_witness :
    boundedIntNew (Option.some 20) (Option.some 10) (.int 15) =
      .error (.valueError (belowMinMsg (.int 15) 20)) := by
  have h := (c5_amended_unsatisfiable 20 10 (by decide)).2 15
  simpa using h

/-- Model of constructing through Valid[f] with no base type given: the base
defaults to Any, _get_bases falls back to object, whose instantiation raises
TypeError twice, so the raw value is kept; with no bounds only the elif
predicate branch of __new__ runs. -/
def validAnyNew (f : PyVal → PyVal) (fname : String) (v : PyVal) :
    Except PyError PyVal :=
  if pyTruthy (f v) then .ok v
  else .error (.valueError (predFalseMsg fname v))

/-- Model of constructing through Valid[int, f]: the value goes through the
lenient int instantiation, then only the predicate is checked. -/
def validIntNew (f : PyVal → PyVal) (fname : String) (v : PyVal) :
    Except PyError PyVal :=
  match instantiateInt v with
  | .error e => .error e
  | .ok i =>
    if pyTruthy (f i) then .ok i
    else .error (.valueError (predFalseMsg fname i))

/-- isinstance(v, int) on the modelled values. -/
def isInstanceInt : PyVal → Bool
  | .int _ => true
  | _ => false

/-- C6 counterexample: Valid[int, f] with an always-true predicate accepts
None: int(None) raises TypeError twice, the raw value None is kept, the
predicate passes, and construction succeeds although None is not an
instance of int - construction never requires instance membership. -/
theorem c6_counterexample :
    validIntNew (fun _ => PyVal.int 1) "tests.always_true" PyVal.none =
      .ok PyVal.none ∧
    isInstanceInt PyVal.none = false := by
  exact ⟨rfl, rfl⟩

/-- C6 amended: Valid[f](x) succeeds returning x iff f(x) is truthy and
otherwise raises the ValueError whose message is the predicate's full name
applied to the repr of the instance, declared False; Valid[int, f] first
coerces x through the lenient instantiation and then checks only the
predicate on the result: it does not require the result to be an instance of
int. -/
theorem c6_amended_valid (f : PyVal → PyVal) (fname : String) (v : PyVal) :
    (validAnyNew f fname v = .ok v ↔ pyTruthy (f v) = true) ∧
    (pyTruthy (f v) = false →
      validAnyNew f fname v = .error (.valueError (predFalseMsg fname v))) ∧
    (∀ i, instantiateInt v = .ok i →
      validIntNew f fname v =
        if pyTruthy (f i) then .ok i
        else .error (.valueError (predFalseMsg fname i))) := by
  refine ⟨?_, ?_, ?_⟩
  · cases h : pyTruthy (f v) with
    | true => simp [validAnyNew, h]
    | false => simp [validAnyNew, h]
  · intro h; simp [validAnyNew, h]
  · intro i h; simp [validIntNew, h]

/-- Witness for C6: an identity predicate rejects the falsy 0 with the
is-False message, and accepts 1. -/
theorem c6_witness :
    validAnyNew (fun x => x) "typet.validation._identity" (.int 0) =
      .error (.valueError (predFalseMsg "typet.validation._identity" (.int 0))) ∧
    validAnyNew (fun x => x) "typet.validation._identity" (.int 1) =
      .ok (.int 1) :=
  ⟨(c6_amended_valid (fun x => x) "typet.validation._identity" (.int 0)).2.1 rfl,
    (c6_amended_valid (fun x => x) "typet.validation._identity" (.int 1)).1.mpr rfl⟩

/-- Declared field types for the typed-record model. -/
inductive DeclType where
  | intT
  | strT
deriving DecidableEq, Repr

/-- Display name of a declared type, as _get_type_name renders it. -/
def declTypeName : DeclType → String
  | .intT => "int"
  | .strT => "str"

/-- The external is_instance collaborator restricted to the simple declared
types the claims use. -/
def isInstanceOf (v : PyVal) : DeclType → Bool
  | .intT => isInstanceInt v
  | .strT =>
    match v with
    | .str _ => true
    | _ => false

/-- Model of the strict-policy property setter produced by
_strict_object_meta_fset: the result pairs the field's stored slot after the
call with the raised error, if any; a rejected assignment raises before the
setattr, leaving the slot untouched. -/
def strictFset (t : DeclType) (stored : Option PyVal) (v : PyVal) :
    Option PyVal × Option PyError :=
  if isInstanceOf v t then (Option.some v, Option.none)
  else
    (stored,
      Option.some (.typeError
        ("Cannot assign value of type " ++ pyTypeName v ++
          " to attribute of type " ++ declTypeName t ++ ".")))

/-- C7: assigning a value that is not an instance of the declared type raises
a TypeError naming the value's type and the declared type, and leaves the
previously stored value unchanged. -/
theorem c7_strict_assign (t : DeclType) (stored : Option PyVal) (v : PyVal)
    (h : isInstanceOf v t = false) :
    strictFset t stored v =
      (stored,
        Option.some (.typeError
          ("Cannot assign value of type " ++ pyTypeName v ++
            " to attribute of type " ++ declTypeName t ++ "."))) := by
  simp [strictFset, h]

/-- Witness for C7: assigning the int 5 to a field declared str leaves the
stored value hello in place and raises the naming TypeError. -/
theorem c7_witness :
    strictFset DeclType.strT (Option.some (.str "hello")) (.int 5) =
      (Option.some (.str "hello"),
        Option.some (.typeError
          "Cannot assign value of type int to attribute of type str.")) :=
  (c7_strict_assign DeclType.strT (Option.some (.str "hello")) (.int 5)
    rfl).trans (by decide)

/-- A field name quoted as the constructor's messages quote it. -/
def quoteArg (s : String) : String := "'" ++ s ++ "'"

/-- Model of the comma join performed by str.join in __init__. -/
def joinComma : List String → String
  | [] => ""
  | [x] => x
  | x :: xs => x ++ ", " ++ joinComma xs

/-- Model of the missing-names list built by _BaseAnnotatedObject.__init__:
all but the last name joined with commas, an extra comma appended when more
than two names are missing, then "and" and the last name. -/
def formatMissing (missing : List String) : String :=
  if missing.length > 1 then
    let args := joinComma (missing.dropLast.map quoteArg)
    let args2 := if missing.length > 2 then args ++ "," else args
    args2 ++ " and " ++ quoteArg (missing.getLastD "")
  else quoteArg (missing.headD "")

/-- The full missing-required-arguments message of __init__. -/
def missingArgsMsg (missing : List String) : String :=
  "__init__() missing " ++ toString missing.length ++ " required argument" ++
    (if missing.length > 1 then "s" else "") ++ ": " ++ formatMissing missing

/-- The positional loop of __init__: each positional value is folded into
the keyword mapping, rejecting a name that is already present. -/
def applyPositionals (pos : List (String × PyVal))
    (kwargs : List (String × PyVal)) : Except PyError (List (String × PyVal)) :=
  match pos with
  | [] => .ok kwargs
  | (attr, value) :: rest =>
    if kwargs.any (fun p => p.1 == attr) then
      .error (.typeError
        ("__init__() got multiple values for argument " ++ quoteArg attr))
    else applyPositionals rest (kwargs ++ [(attr, value)])

/-- Model of the generated constructor _BaseAnnotatedObject.__init__: merge
the positional arguments into the keyword set (zipped against the declared
property order), fail on a duplicate, fail listing every missing required
field, then keep the assignments to declared properties. -/
def annotatedInit (properties required : List String) (args : List PyVal)
    (kwargs : List (String × PyVal)) : Except PyError (List (String × PyVal)) :=
  match applyPositionals (properties.zip args) kwargs with
  | .error e => .error e
  | .ok kw =>
    let missing := required.filter (fun attr => !(kw.any (fun p => p.1 == attr)))
    if missing.isEmpty then .ok (kw.filter (fun p => properties.contains p.1))
    else .error (.typeError (missingArgsMsg missing))

/-- C8 counterexample: with the three required fields a, b, c all missing the
raised message joins them with a comma kept before "and", not in the claimed
form. -/
theorem c8_counterexample :
    annotatedInit ["a", "b", "c"] ["a", "b", "c"] [] [] =
      .error (.typeError
        "__init__() missing 3 required arguments: 'a', 'b', and 'c'") ∧
    ("'a', 'b', and 'c'" : String) ≠ "'a', 'b' and 'c'" := by
  exact ⟨by rfl, by decide⟩

/-- C8 amended: the missing-field list renders one name alone, two names as
name and name, and three or more with the comma kept before "and"; a field
supplied both positionally and by keyword raises the multiple-values
TypeError. -/
theorem c8_amended_init (a b c : String) (v : PyVal) :
    (formatMissing [a] = quoteArg a) ∧
    (formatMissing [a, b] = quoteArg a ++ " and " ++ quoteArg b) ∧
    (formatMissing [a, b, c] =
      quoteArg a ++ ", " ++ quoteArg b ++ "," ++ " and " ++ quoteArg c) ∧
    (annotatedInit ["x", "y", "z"] ["x", "y", "z"] [] [] =
      .error (.typeError
        "__init__() missing 3 required arguments: 'x', 'y', and 'z'")) ∧
    (∀ ps req vs kw, kw.any (fun p => p.1 == a) = true →
      annotatedInit (a :: ps) req (v :: vs) kw =
        .error (.typeError
          ("__init__() got multiple values for argument " ++ quoteArg a))) := by
  refine ⟨rfl, rfl, rfl, by rfl, ?_⟩
  intro ps req vs kw h
  simp [annotatedInit, applyPositionals, h]

/-- Witness for C8 at concrete fields: one missing name renders alone, and
supplying f positionally and by keyword raises the multiple-values error. -/
theorem c8_witness :
    formatMissing ["m"] = quoteArg "m" ∧
    annotatedInit ["f"] [] [PyVal.int 1] [("f", PyVal.int 2)] =
      .error (.typeError
        ("__init__() got multiple values for argument " ++ quoteArg "f")) :=
  ⟨(c8_amended_init "m" "" "" PyVal.none).1,
    (c8_amended_init "f" "" "" (PyVal.int 1)).2.2.2.2 [] []
      [] [("f", PyVal.int 2)] (by decide)⟩

/-- A record instance seen by the comparison mixin: its concrete class and
the tuple of manageable field values in declaration order. -/
structure RecordInst where
  cls : String
  fields : List PyVal
deriving DecidableEq, Repr

/-- A model hash of one field value (Python hashes an int as itself). -/
def pyHash : PyVal → Int
  | .int n => n
  | .str s => s.data.foldl (fun a c => a * 31 + (c.toNat : Int)) 7
  | .none => 0

/-- The hash of the tuple of field values returned by
_tp__get_typed_properties, modelled as a deterministic fold. -/
def tupleHash (l : List PyVal) : Int :=
  l.foldl (fun a v => a * 1000003 + pyHash v) 5381

/-- Model of _AnnotatedObjectComparisonMixin.__eq__: NotImplemented (here
Option.none) on different concrete classes, else comparison of the two field
tuples. -/
def mixinEq (a b : RecordInst) : Option Bool :=
  if a.cls = b.cls then Option.some (decide (a.fields = b.fields))
  else Option.none

/-- Model of _AnnotatedObjectComparisonMixin.__hash__: the hash of the tuple
of the instance's manageable field values. -/
def mixinHash (a : RecordInst) : Int := tupleHash a.fields

/-- C9: two instances of the same record class with pairwise equal field
values compare equal and hash equally, and the mixin never reports instances
of different classes equal - it returns NotImplemented instead. -/
theorem c9_mixin_eq_hash (a b : RecordInst) :
    (a.cls = b.cls → a.fields = b.fields →
      mixinEq a b = Option.some true ∧ mixinHash a = mixinHash b) ∧
    (a.cls ≠ b.cls → mixinEq a b = Option.none) := by
  constructor
  · intro h1 h2
    constructor
    · simp [mixinEq, h1, h2]
    · simp [mixinHash, h2]
  · intro h
    simp [mixinEq, h]

/-- Witness for C9: equal Point instances are equal with equal hashes, and a
Point never equals a Pixel through the mixin. -/
theorem c9_witness :
    mixinEq ⟨"Point", [.int 1, .int 2]⟩ ⟨"Point", [.int 1, .int 2]⟩ =
      Option.some true ∧
    mixinHash ⟨"Point", [.int 1, .int 2]⟩ =
      mixinHash ⟨"Point", [.int 1, .int 2]⟩ ∧
    mixinEq ⟨"Point", [.int 1]⟩ ⟨"Pixel", [.int 1]⟩ = Option.none :=
  ⟨((c9_mixin_eq_hash ⟨"Point", [.int 1, .int 2]⟩
      ⟨"Point", [.int 1, .int 2]⟩).1 rfl rfl).1,
    ((c9_mixin_eq_hash ⟨"Point", [.int 1, .int 2]⟩
      ⟨"Point", [.int 1, .int 2]⟩).1 rfl rfl).2,
    (c9_mixin_eq_hash ⟨"Point", [.int 1]⟩ ⟨"Pixel", [.int 1]⟩).2 (by decide)⟩

/-- C10: a zero bound end renders as the empty string, exactly as an absent
end does, so the type created by Bounded[int, 0:5] renders its bound as :5
and the zero bound cannot be read back from the rendered name. -/
theorem c10_zero_bound_repr :
    (∀ stop, getBoundRepr (Option.some 0) stop = getBoundRepr Option.none stop) ∧
    (∀ start, getBoundRepr start (Option.some 0) = getBoundRepr start Option.none) ∧
    getBoundRepr (Option.some 0) (Option.some 5) = ":5" ∧
    boundedIntClassRepr (Option.some 0) (Option.some 5) =
      boundedIntClassRepr Option.none (Option.some 5) := by
  exact ⟨fun stop => rfl, fun start => rfl, by decide, rfl⟩

end Typet
